import Mathlib

/-!
Shallow embedding of the geospatial classification and opportunity scoring
engine of the `market_analizer` repository, together with theorems settling
the specification claims.

Conventions of the embedding:
* Python floats are modelled as exact rationals (`ℚ`) in the computable
  classifier/scorer code, and as real numbers (`ℝ`) in the trigonometric
  distance code (`haversine_distance`, `calculate_distance`).
* Nullable columns are modelled as `Option`; Python truthiness on a
  nullable number (`if not x`) treats both `None` and `0` as falsy, which
  the helper `optTruthy` captures.
* Python's `round` (banker's rounding, half to even) is `pyRoundHalfEven`
  (to an integer) and `pyRound1` (to one decimal digit).
* `datetime` values are modelled as integer day counts; "now" is an
  explicit parameter.
* Database sessions are modelled by explicit state passing: each analyzer
  takes the relevant query results (or the full property list) as input and
  returns the record it would persist.
* Configuration (`config.py` is not part of the sources; the spec describes
  it as externally supplied) is modelled as explicit parameters: color
  thresholds, land filter bounds, urgency weights and levels, reference
  center and validity radius.
-/

namespace MarketAnalizer

/-! ## Python rounding (banker's rounding, `round`) -/

/-- Python's `round(x)`: nearest integer, ties to even. -/
def pyRoundHalfEven (q : ℚ) : ℤ :=
  let f : ℤ := ⌊q⌋
  let r : ℚ := q - f
  if r < 1/2 then f
  else if 1/2 < r then f + 1
  else if 2 ∣ f then f else f + 1

/-- Python's `round(x, 1)`: round to one decimal digit, ties to even. -/
def pyRound1 (q : ℚ) : ℚ :=
  (pyRoundHalfEven (10 * q) : ℚ) / 10

/-! ## Python truthiness on nullable numbers -/

/-- Truthiness of a nullable float: `None` and `0` are falsy. -/
def optTruthy (x : Option ℚ) : Bool :=
  match x with
  | none => false
  | some v => v ≠ 0

/-- Truthiness of a nullable integer: `None` and `0` are falsy. -/
def optTruthyInt (x : Option ℤ) : Bool :=
  match x with
  | none => false
  | some v => v ≠ 0

/-- Python `a or b` on nullable floats: `a` when truthy, else `b`. -/
def pyOr (a b : Option ℚ) : Option ℚ :=
  if optTruthy a then a else b

/-! ## Data model (`src/data/database.py`)

Only the columns read by the analyzers are modelled. -/

/-- A `Property` row (comparable record). -/
structure Property where
  id : ℕ
  street_name : String
  city : String
  zip : String
  latitude : Option ℚ
  longitude : Option ℚ
  sale_price : Option ℚ
  list_price : Option ℚ
  sqft : Option ℚ
  price_per_sqft : Option ℚ
  lot_size : Option ℚ
  status : String
  sale_date : Option ℤ
  days_on_market : Option ℤ
  archived : Bool
  deriving Repr, DecidableEq

/-- A persisted `StreetAnalysis` row (street zone record). -/
structure StreetAnalysis where
  street_name : String
  city : String
  median_price_sqft : ℚ
  min_price_sqft : ℚ
  max_price_sqft : ℚ
  avg_dom : Option ℚ
  min_dom : Option ℤ
  max_dom : Option ℤ
  color : String
  sample_size : ℕ
  confidence_score : ℚ
  deriving Repr, DecidableEq

/-- A persisted `MarketHeatZone` row. -/
structure MarketHeatZone where
  zip_code : String
  active_listings : ℕ
  sold_last_90d : ℕ
  inventory_months : ℚ
  price_change_90d : ℚ
  dom_change_90d : ℚ
  market_status : String
  recommendation : String
  deriving Repr, DecidableEq

/-- A persisted `LandOpportunity` row (fields written by the land scorer). -/
structure LandOpportunity where
  property_id : ℕ
  urgency_score : ℤ
  urgency_level : String
  zone_color : String
  market_status : String
  nearby_avg_price_sqft : ℚ
  recent_sales_count : ℕ
  notes : String
  created_at : ℤ
  deriving Repr, DecidableEq

/-! ## Street analyzer (`src/analyzers/street_analyzer.py`) -/

/-- The configurable color thresholds (`config.COLOR_THRESHOLDS`). -/
structure ColorThresholds where
  green : ℚ
  light_green : ℚ
  yellow : ℚ
  deriving Repr, DecidableEq

/-- `determine_color`: descending threshold ladder on the median price per
square foot. -/
def determine_color (t : ColorThresholds) (avg_price_sqft : ℚ) : String :=
  if avg_price_sqft ≥ t.green then "green"
  else if avg_price_sqft ≥ t.light_green then "light_green"
  else if avg_price_sqft ≥ t.yellow then "yellow"
  else "red"

/-- Rank of a color on the ordering red < yellow < light_green < green. -/
def colorTier (c : String) : ℕ :=
  if c = "green" then 3
  else if c = "light_green" then 2
  else if c = "yellow" then 1
  else 0

/-- Python's `round(x, 2)`: round to two decimal digits, ties to even. -/
def pyRound2 (q : ℚ) : ℚ :=
  (pyRoundHalfEven (100 * q) : ℚ) / 100

/-- `calculate_confidence`: `min(sample_size / 10, 1.0)` rounded to two
decimals. -/
def calculate_confidence (sample_size : ℕ) : ℚ :=
  pyRound2 (min ((sample_size : ℚ) / 10) 1)

/-- Keep a nullable float only when it is truthy. -/
def keepTruthyQ (x : Option ℚ) : Option ℚ :=
  if optTruthy x then x else none

/-- Keep a nullable integer only when it is truthy. -/
def keepTruthyZ (x : Option ℤ) : Option ℤ :=
  if optTruthyInt x then x else none

/-- The list comprehension `[p.price_per_sqft for p in properties if
p.price_per_sqft]`: keep the price-per-sqft values that are truthy
(present and nonzero). -/
def truthyPrices (properties : List Property) : List ℚ :=
  properties.filterMap fun p => keepTruthyQ p.price_per_sqft

/-- The list comprehension `[p.days_on_market for p in properties if
p.days_on_market]`. -/
def truthyDoms (properties : List Property) : List ℤ :=
  properties.filterMap fun p => keepTruthyZ p.days_on_market

/-- `min` of a nonempty list (Python's built-in `min`). -/
def listMin {α : Type} [Min α] (x : α) (xs : List α) : α :=
  xs.foldl Min.min x

/-- `max` of a nonempty list (Python's built-in `max`). -/
def listMax {α : Type} [Max α] (x : α) (xs : List α) : α :=
  xs.foldl Max.max x

/-- `np.median`: sort, take the middle element (odd length) or the mean of
the two middle elements (even length). -/
def npMedian (l : List ℚ) : ℚ :=
  let s := l.mergeSort (· ≤ ·)
  let n := s.length
  if n % 2 = 1 then s.getD (n / 2) 0
  else (s.getD (n / 2 - 1) 0 + s.getD (n / 2) 0) / 2

/-- `np.mean`: sum divided by length. -/
def npMean (l : List ℚ) : ℚ :=
  l.sum / l.length

/-- The metrics dictionary built by `calculate_street_metrics`. -/
structure StreetMetrics where
  median_price_sqft : ℚ
  min_price_sqft : ℚ
  max_price_sqft : ℚ
  sample_size : ℕ
  avg_dom : Option ℚ
  min_dom : Option ℤ
  max_dom : Option ℤ
  deriving Repr, DecidableEq

/-- `calculate_street_metrics`: price metrics over the truthy
price-per-sqft values (empty dictionary, i.e. `none`, when there are
none), DOM metrics over the truthy days-on-market values (`None` fields
when there are none). -/
def calculate_street_metrics (properties : List Property) : Option StreetMetrics :=
  match truthyPrices properties with
  | [] => none
  | q :: qs =>
      let doms := truthyDoms properties
      some {
        median_price_sqft := npMedian (q :: qs)
        min_price_sqft := listMin q qs
        max_price_sqft := listMax q qs
        sample_size := properties.length
        avg_dom := match doms with
          | [] => none
          | _ :: _ => some (npMean (doms.map (fun (d : ℤ) => (d : ℚ))))
        min_dom := match doms with
          | [] => none
          | d :: ds => some (listMin d ds)
        max_dom := match doms with
          | [] => none
          | d :: ds => some (listMax d ds) }

/-! ## Market heat analyzer (`src/analyzers/market_heat.py`) -/

/-- `calculate_inventory_months`: `active / (sold_90d / 3)` rounded to one
decimal; the sentinel `999.0` when there are no sales. -/
def calculate_inventory_months (active sold_90d : ℕ) : ℚ :=
  if sold_90d = 0 then 999
  else
    let monthly_sales : ℚ := (sold_90d : ℚ) / 3
    if monthly_sales = 0 then 999
    else pyRound1 ((active : ℚ) / monthly_sales)

/-- `determine_market_status`: inventory ladder, then the price-change
test; `dom_change` is accepted but never read. -/
def determine_market_status (inventory price_change dom_change : ℚ) : String :=
  if inventory > 12 then "cold"
  else if inventory ≥ 6 then "stable"
  else if price_change > 15 then "overheated"
  else "growing"

/-- Steps 3 and 6 of `analyze_market_heat_by_zip`: the status computed
from the active count and the 90-day sold count (with the change metrics
as further inputs). -/
def market_status_from_counts (active sold : ℕ) (price_change dom_change : ℚ) : String :=
  determine_market_status (calculate_inventory_months active sold) price_change dom_change

/-- Modelled from the spec: the claim's reading of the status assignment,
with the inventory ladder applied to the exact quotient
`active / (sold / 3)` (no rounding). Used to compare against the code. -/
def spec_market_status_exact (active sold : ℕ) (price_change : ℚ) : String :=
  let inventory : ℚ := (active : ℚ) / ((sold : ℚ) / 3)
  if inventory > 12 then "cold"
  else if inventory ≥ 6 then "stable"
  else if price_change > 15 then "overheated"
  else "growing"

/-! ## Land scorer (`src/analyzers/land_scorer.py`)

The distance function is a parameter of the model (the source fixes it to
`haversine_distance`, embedded over `ℝ` further below); every theorem in
this section holds for an arbitrary distance function, hence in particular
for the haversine one. -/

/-- `config.LAND_FILTER`. -/
structure LandFilter where
  max_price : ℚ
  min_lot_size : ℚ
  allowed_zone_colors : List String
  market_heat_allowed : List String
  min_nearby_price_sqft : ℚ
  min_recent_sales : ℕ
  deriving Repr, DecidableEq

/-- `config.URGENCY_SCORING` (the weight vector). -/
structure UrgencyWeights where
  zone_color : ℚ
  market_heat : ℚ
  price_opportunity : ℚ
  recent_sales : ℚ
  deriving Repr, DecidableEq

/-- `config.URGENCY_LEVELS` (the level thresholds). -/
structure UrgencyLevels where
  urgent : ℤ
  good : ℤ
  deriving Repr, DecidableEq

/-- `get_nearby_properties`: the query keeps rows with both coordinates
present and not archived; the loop keeps those within the radius that are
either sold with a sale date in the last 365 days or active. -/
def get_nearby_properties (dist : ℚ → ℚ → ℚ → ℚ → ℚ) (now : ℤ)
    (all_properties : List Property) (lat lon : ℚ) (radius_miles : ℚ) : List Property :=
  let one_year_ago := now - 365
  let with_coords := all_properties.filter fun p =>
    p.latitude.isSome && p.longitude.isSome && !p.archived
  with_coords.filter fun p =>
    let distance := dist lat lon (p.latitude.getD 0) (p.longitude.getD 0)
    decide (distance ≤ radius_miles) &&
      ((p.status = "sold" &&
          (match p.sale_date with
           | some sd => decide (sd ≥ one_year_ago)
           | none => false)) ||
        p.status = "active")

/-- `calculate_avg_nearby_price_sqft`: mean of the truthy price-per-sqft
values, `0.0` when there are none. -/
def calculate_avg_nearby_price_sqft (properties : List Property) : ℚ :=
  match truthyPrices properties with
  | [] => 0
  | q :: qs => npMean (q :: qs)

/-- `count_recent_sales`: sold with a sale date in the last 90 days. -/
def count_recent_sales (now : ℤ) (properties : List Property) : ℕ :=
  let ninety_days_ago := now - 90
  (properties.filter fun p =>
    p.status = "sold" &&
      (match p.sale_date with
       | some sd => decide (sd ≥ ninety_days_ago)
       | none => false)).length

/-- `score_zone_color`: dictionary lookup with default `0`. -/
def score_zone_color (color : String) : ℕ :=
  if color = "green" then 100
  else if color = "light_green" then 75
  else if color = "yellow" then 50
  else if color = "red" then 0
  else 0

/-- `score_market_heat`: dictionary lookup with default `0`. -/
def score_market_heat (status : String) : ℕ :=
  if status = "growing" then 100
  else if status = "stable" then 80
  else if status = "cold" then 50
  else if status = "overheated" then 0
  else 0

/-- `score_price_opportunity`: `0` on a zero average, else the ratio
ladder. -/
def score_price_opportunity (land_price_sqft avg_nearby_price_sqft : ℚ) : ℕ :=
  if avg_nearby_price_sqft = 0 then 0
  else
    let price_ratio := land_price_sqft / avg_nearby_price_sqft
    if price_ratio < 1/2 then 100
    else if price_ratio < 7/10 then 75
    else if price_ratio < 9/10 then 50
    else 0

/-- `calculate_land_score`: the weighted sum of the four factor scores,
rounded with Python's `round` (`int(round(..))`). -/
def calculate_land_score (weights : UrgencyWeights) (zone_color market_status : String)
    (nearby_avg_price_sqft land_price_sqft : ℚ) (recent_sales_count : ℕ) : ℤ :=
  let color_score := score_zone_color zone_color
  let heat_score := score_market_heat market_status
  let price_score := score_price_opportunity land_price_sqft nearby_avg_price_sqft
  let activity_score : ℕ :=
    if recent_sales_count ≥ 5 then 100
    else if recent_sales_count ≥ 3 then 75
    else if recent_sales_count ≥ 1 then 50
    else 0
  pyRoundHalfEven
    ((color_score : ℚ) * weights.zone_color +
     (heat_score : ℚ) * weights.market_heat +
     (price_score : ℚ) * weights.price_opportunity +
     (activity_score : ℚ) * weights.recent_sales)

/-- The land price per square foot computed in step 6 of
`evaluate_land_opportunity`: lot-size basis (acres × 43560) when the
building `sqft` is absent or zero, else `price_per_sqft or price/sqft`. -/
def land_price_sqft_of (p : Property) (price : ℚ) : ℚ :=
  if !optTruthy p.sqft || p.sqft.getD 0 = 0 then
    let land_sqft := p.lot_size.getD 0 * 43560
    if land_sqft > 0 then price / land_sqft else 0
  else
    if optTruthy p.price_per_sqft then p.price_per_sqft.getD 0
    else price / p.sqft.getD 0

/-- `evaluate_land_opportunity`.

Inputs mirror the queries the function issues: `street_analysis` is the
`StreetAnalysis` row for the parcel's (street, city), `market_heat` the
`MarketHeatZone` row for its ZIP, `all_properties` the repository rows
scanned by `get_nearby_properties`, `existing` the `LandOpportunity` row
already persisted for this parcel's id.

Returns `(result, persisted)` where `result` is the function's return
value (`none` = rejected) and `persisted` the repository record for this
parcel after the call (`existing` unchanged on rejection, the inserted or
updated row on success). -/
def evaluate_land_opportunity (filters : LandFilter) (weights : UrgencyWeights)
    (levels : UrgencyLevels) (dist : ℚ → ℚ → ℚ → ℚ → ℚ) (now : ℤ)
    (street_analysis : Option StreetAnalysis) (market_heat : Option MarketHeatZone)
    (all_properties : List Property) (existing : Option LandOpportunity)
    (p : Property) : Option LandOpportunity × Option LandOpportunity :=
  -- 1. coordinates must be truthy
  if !optTruthy p.latitude || !optTruthy p.longitude then (none, existing)
  else
    -- 2. street analysis must exist
    match street_analysis with
    | none => (none, existing)
    | some sa =>
      let zone_color := sa.color
      -- 3. market heat must exist
      match market_heat with
      | none => (none, existing)
      | some mh =>
        let market_status := mh.market_status
        -- 4. price = list_price or sale_price; reject if falsy or above max
        let price? := pyOr p.list_price p.sale_price
        if !optTruthy price? || decide (price?.getD 0 > filters.max_price) then (none, existing)
        else
          let price := price?.getD 0
          -- 5. lot size
          if !optTruthy p.lot_size || decide (p.lot_size.getD 0 < filters.min_lot_size) then
            (none, existing)
          else
            -- 6. zone color allow-list
            if !(filters.allowed_zone_colors.contains zone_color) then (none, existing)
            else
              -- 7. market status allow-list
              if !(filters.market_heat_allowed.contains market_status) then (none, existing)
              else
                -- 8. at least one nearby property within 5 miles
                let nearby_properties :=
                  get_nearby_properties dist now all_properties
                    (p.latitude.getD 0) (p.longitude.getD 0) 5
                if nearby_properties.length = 0 then (none, existing)
                else
                  -- 9. nearby average price
                  let avg_nearby_price_sqft := calculate_avg_nearby_price_sqft nearby_properties
                  if avg_nearby_price_sqft < filters.min_nearby_price_sqft then (none, existing)
                  else
                    -- 10. recent sales count
                    let recent_sales_count := count_recent_sales now nearby_properties
                    if recent_sales_count < filters.min_recent_sales then (none, existing)
                    else
                      let land_price_sqft := land_price_sqft_of p price
                      let urgency_score :=
                        calculate_land_score weights zone_color market_status
                          avg_nearby_price_sqft land_price_sqft recent_sales_count
                      let urgency_level :=
                        if urgency_score ≥ levels.urgent then "urgent"
                        else if urgency_score ≥ levels.good then "good"
                        else "normal"
                      let notes := "Участок в " ++ zone_color ++ " зоне, рынок " ++ market_status
                      match existing with
                      | some e =>
                          let e' : LandOpportunity :=
                            { e with
                              urgency_score := urgency_score
                              urgency_level := urgency_level
                              zone_color := zone_color
                              market_status := market_status
                              nearby_avg_price_sqft := avg_nearby_price_sqft
                              recent_sales_count := recent_sales_count
                              notes := notes }
                          (some e', some e')
                      | none =>
                          let land_opp : LandOpportunity :=
                            { property_id := p.id
                              urgency_score := urgency_score
                              urgency_level := urgency_level
                              zone_color := zone_color
                              market_status := market_status
                              nearby_avg_price_sqft := avg_nearby_price_sqft
                              recent_sales_count := recent_sales_count
                              notes := notes
                              created_at := now }
                          (some land_opp, some land_opp)

/-- The conjunction of the ten eligibility filters of
`evaluate_land_opportunity`, in the order the code checks them. -/
def land_filters_pass (filters : LandFilter) (dist : ℚ → ℚ → ℚ → ℚ → ℚ) (now : ℤ)
    (street_analysis : Option StreetAnalysis) (market_heat : Option MarketHeatZone)
    (all_properties : List Property) (p : Property) : Bool :=
  optTruthy p.latitude && optTruthy p.longitude &&
  street_analysis.isSome && market_heat.isSome &&
  (let price? := pyOr p.list_price p.sale_price
   optTruthy price? && decide (price?.getD 0 ≤ filters.max_price)) &&
  (optTruthy p.lot_size && decide (p.lot_size.getD 0 ≥ filters.min_lot_size)) &&
  (match street_analysis with
   | some sa => filters.allowed_zone_colors.contains sa.color
   | none => false) &&
  (match market_heat with
   | some mh => filters.market_heat_allowed.contains mh.market_status
   | none => false) &&
  (let nearby := get_nearby_properties dist now all_properties
      (p.latitude.getD 0) (p.longitude.getD 0) 5
   !(nearby.length = 0) &&
   decide (calculate_avg_nearby_price_sqft nearby ≥ filters.min_nearby_price_sqft) &&
   decide (count_recent_sales now nearby ≥ filters.min_recent_sales))

/-- Modelled from the spec: the claim's price selection for filter step 4,
"sale price if present, else list price" (the code uses the opposite
order).  Used only to compare the claim against the code. -/
def land_filters_pass_sale_first (filters : LandFilter) (dist : ℚ → ℚ → ℚ → ℚ → ℚ) (now : ℤ)
    (street_analysis : Option StreetAnalysis) (market_heat : Option MarketHeatZone)
    (all_properties : List Property) (p : Property) : Bool :=
  optTruthy p.latitude && optTruthy p.longitude &&
  street_analysis.isSome && market_heat.isSome &&
  (let price? := pyOr p.sale_price p.list_price
   optTruthy price? && decide (price?.getD 0 ≤ filters.max_price)) &&
  (optTruthy p.lot_size && decide (p.lot_size.getD 0 ≥ filters.min_lot_size)) &&
  (match street_analysis with
   | some sa => filters.allowed_zone_colors.contains sa.color
   | none => false) &&
  (match market_heat with
   | some mh => filters.market_heat_allowed.contains mh.market_status
   | none => false) &&
  (let nearby := get_nearby_properties dist now all_properties
      (p.latitude.getD 0) (p.longitude.getD 0) 5
   !(nearby.length = 0) &&
   decide (calculate_avg_nearby_price_sqft nearby ≥ filters.min_nearby_price_sqft) &&
   decide (count_recent_sales now nearby ≥ filters.min_recent_sales))

/-- Replace a zero price-per-sqft or zero days-on-market by `None`
(the "as if the value were absent" reading of the truthiness filters). -/
def clear_falsy_fields (p : Property) : Property :=
  { p with
    price_per_sqft := match p.price_per_sqft with
      | some v => if v = 0 then none else some v
      | none => none
    days_on_market := match p.days_on_market with
      | some v => if v = 0 then none else some v
      | none => none }

/-! ## Geocoding with cache (`src/data/geocoder.py`), cache/call model

The external geocoder, the address normalization (`strip().title()`), the
plausibility check and the random jitters are inputs of the model
(`GeoEnv`); outbound requests are numbered and answered by the `resps`
stream.  `geocode_address` returns the coordinate, the updated cache and
the number of outbound geocoder calls issued. -/

/-- Outcome of one outbound geocoder request. -/
inductive GeoResp where
  | found (lat lon : ℚ)
  | notFound
  | timedOut
  | svcError
  deriving Repr, DecidableEq

/-- Environment of one `geocode_address` invocation. -/
structure GeoEnv where
  /-- `address.strip().title()` -/
  norm : String → String
  /-- response to the n-th outbound geocoder request of this invocation -/
  resps : ℕ → GeoResp
  /-- outcome of `validate_coordinates` (the plausibility check) -/
  valid : ℚ → ℚ → Bool
  /-- whether the 5-digit ZIP regex matches the address -/
  zipFound : Bool
  /-- `CITY_CENTER` -/
  center : ℚ × ℚ
  /-- tier-2 random jitter (`random.uniform(-0.01, 0.01)` twice) -/
  j2 : ℚ × ℚ
  /-- tier-3 random jitter (`random.uniform(-0.05, 0.05)` twice) -/
  j3 : ℚ × ℚ

/-- The persistent geocode cache: normalized address → coordinate. -/
def GeoCache := List (String × (ℚ × ℚ))

/-- Dictionary lookup in the cache. -/
def cacheLookup : GeoCache → String → Option (ℚ × ℚ)
  | [], _ => none
  | (k, v) :: rest, a => if k = a then some v else cacheLookup rest a

/-- Dictionary write `cache[address] = coords`. -/
def cacheInsert (cache : GeoCache) (a : String) (v : ℚ × ℚ) : GeoCache :=
  (a, v) :: cache

/-- The primary-geocoder retry loop of `geocode_address` (at most 3
attempts; only a timeout retries).  Returns the validated coordinate (or
`none`) and the updated outbound-call count. -/
def primary_attempts (env : GeoEnv) : ℕ → ℕ → Option (ℚ × ℚ) × ℕ
  | 0, calls => (none, calls)
  | fuel + 1, calls =>
    match env.resps calls with
    | .found lat lon =>
        if env.valid lat lon then (some (lat, lon), calls + 1) else (none, calls + 1)
    | .notFound => (none, calls + 1)
    | .svcError => (none, calls + 1)
    | .timedOut =>
        if fuel = 0 then (none, calls + 1) else primary_attempts env fuel (calls + 1)

/-- Tier 3 of `fallback_geocode`: city center plus the ±0.05° jitter,
returned without validation. -/
def fallback_tier3 (env : GeoEnv) (calls : ℕ) : (ℚ × ℚ) × ℕ :=
  ((env.center.1 + env.j3.1, env.center.2 + env.j3.2), calls)

/-- Tier 2 of `fallback_geocode`: ZIP-only query plus the ±0.01° jitter,
validated. -/
def fallback_tier2 (env : GeoEnv) (calls : ℕ) : (ℚ × ℚ) × ℕ :=
  if env.zipFound then
    match env.resps calls with
    | .found lat lon =>
        let lat' := lat + env.j2.1
        let lon' := lon + env.j2.2
        if env.valid lat' lon' then ((lat', lon'), calls + 1)
        else fallback_tier3 env (calls + 1)
    | _ => fallback_tier3 env (calls + 1)
  else fallback_tier3 env calls

/-- `fallback_geocode` (cache/call model): street-only query, then
ZIP-plus-jitter query, then the unvalidated center-plus-jitter tier. -/
def fallback_geocode_model (env : GeoEnv) (calls : ℕ) : (ℚ × ℚ) × ℕ :=
  match env.resps calls with
  | .found lat lon =>
      if env.valid lat lon then ((lat, lon), calls + 1)
      else fallback_tier2 env (calls + 1)
  | _ => fallback_tier2 env (calls + 1)

/-- `geocode_address`: normalize, consult the cache, otherwise run the
primary retry loop and, on failure, the fallback chain; every fresh result
is written to the cache. -/
def geocode_address (env : GeoEnv) (cache : GeoCache) (address : String) :
    (ℚ × ℚ) × GeoCache × ℕ :=
  let a := env.norm address
  match cacheLookup cache a with
  | some coords => (coords, cache, 0)
  | none =>
    match primary_attempts env 3 0 with
    | (some coords, n) => (coords, cacheInsert cache a coords, n)
    | (none, n) =>
        let fb := fallback_geocode_model env n
        (fb.1, cacheInsert cache a fb.1, fb.2)

end MarketAnalizer

namespace MarketAnalizer

/-! ## Great-circle distance (`haversine_distance`, `calculate_distance`)
and the real-valued geocoder fallback

Python floats are modelled as real numbers here; `math.atan2` is embedded
piecewise through `Real.arctan`. -/

noncomputable section

open Real

/-- `math.radians`: degrees to radians. -/
def radians (deg : ℝ) : ℝ := deg * π / 180

/-- `math.atan2 y x`. -/
def atan2 (y x : ℝ) : ℝ :=
  if 0 < x then arctan (y / x)
  else if x < 0 then (if 0 ≤ y then arctan (y / x) + π else arctan (y / x) - π)
  else if 0 < y then π / 2
  else if y < 0 then -(π / 2)
  else 0

/-- `haversine_distance` (`src/data/geocoder.py`): great-circle distance
in miles, Earth radius 3959. -/
def haversine_distance (lat1 lon1 lat2 lon2 : ℝ) : ℝ :=
  let R : ℝ := 3959
  let lat1_rad := radians lat1
  let lat2_rad := radians lat2
  let dlat := radians (lat2 - lat1)
  let dlon := radians (lon2 - lon1)
  let a := sin (dlat / 2) ^ 2 + cos lat1_rad * cos lat2_rad * sin (dlon / 2) ^ 2
  let c := 2 * atan2 (√a) (√(1 - a))
  R * c

/-- `calculate_distance` (`src/analyzers/zone_analyzer.py`): the same
haversine formula, duplicated in the source. -/
def calculate_distance (lat1 lon1 lat2 lon2 : ℝ) : ℝ :=
  let R : ℝ := 3959
  let lat1_rad := radians lat1
  let lat2_rad := radians lat2
  let dlat := lat2_rad - lat1_rad
  let dlon := radians lon2 - radians lon1
  let a := sin (dlat / 2) ^ 2 + cos lat1_rad * cos lat2_rad * sin (dlon / 2) ^ 2
  let c := 2 * atan2 (√a) (√(1 - a))
  R * c

/-- The rectangular pre-filter of `analyze_nearby_zones`: latitude delta
`radius/69` degrees, longitude delta `radius/55` degrees. -/
def in_bounding_box (lat lng radius_miles plat plng : ℝ) : Prop :=
  (lat - radius_miles / 69 ≤ plat ∧ plat ≤ lat + radius_miles / 69) ∧
  (lng - radius_miles / 55 ≤ plng ∧ plng ≤ lng + radius_miles / 55)

/-- The exact distance check of `analyze_nearby_zones`. -/
def within_radius (lat lng radius_miles plat plng : ℝ) : Prop :=
  calculate_distance lat lng plat plng ≤ radius_miles

/-- The reference center and validity radius (`config.CITY_CENTER`,
`config.RADIUS_MILES`; configuration is externally supplied, so it is a
parameter of the model). -/
structure GeoConfig where
  center_lat : ℝ
  center_lon : ℝ
  radius_miles : ℝ

/-- `validate_coordinates`: plausibility check against the reference
center. -/
def validate_coordinates (cfg : GeoConfig) (lat lon : ℝ) : Prop :=
  haversine_distance cfg.center_lat cfg.center_lon lat lon ≤ cfg.radius_miles

open scoped Classical in
/-- `fallback_geocode` (real-valued model): tier 1 (street-only) and
tier 2 (ZIP plus ±0.01° jitter) are validated; tier 3 returns the center
plus the ±0.05° jitter without validation.  The two geocoder responses
and the jitters are inputs. -/
def fallback_geocode (cfg : GeoConfig) (street_resp : Option (ℝ × ℝ))
    (zip_found : Bool) (zip_resp : Option (ℝ × ℝ)) (j2 j3 : ℝ × ℝ) : ℝ × ℝ :=
  let tier3 : ℝ × ℝ := (cfg.center_lat + j3.1, cfg.center_lon + j3.2)
  let tier2 : ℝ × ℝ :=
    if zip_found then
      match zip_resp with
      | some (lat, lon) =>
          let lat' := lat + j2.1
          let lon' := lon + j2.2
          if validate_coordinates cfg lat' lon' then (lat', lon') else tier3
      | none => tier3
    else tier3
  match street_resp with
  | some (lat, lon) =>
      if validate_coordinates cfg lat lon then (lat, lon) else tier2
  | none => tier2

end

/-! ## Theorems -/

/-- Evaluation helper: `round` at a value in the lower half of its
integer interval. -/
theorem pyRoundHalfEven_eq {q : ℚ} {f : ℤ} (h1 : (f : ℚ) ≤ q) (h2 : q < (f : ℚ) + 1/2) :
    pyRoundHalfEven q = f := by
  have hf : ⌊q⌋ = f := Int.floor_eq_iff.mpr ⟨h1, by linarith⟩
  unfold pyRoundHalfEven
  rw [hf, if_pos (by linarith)]

/-- Evaluation helper: `round` at a value in the upper half of its
integer interval. -/
theorem pyRoundHalfEven_eq_add_one {q : ℚ} {f : ℤ} (h1 : (f : ℚ) + 1/2 < q)
    (h2 : q < (f : ℚ) + 1) : pyRoundHalfEven q = f + 1 := by
  have hf : ⌊q⌋ = f := Int.floor_eq_iff.mpr ⟨by linarith, by linarith⟩
  unfold pyRoundHalfEven
  rw [hf, if_neg (by linarith), if_pos (by linarith)]

/-- C8: the street-zone color assignment is monotone in the median
price-per-area: for medians `m1 ≤ m2`, the tier (red < yellow <
light_green < green) assigned to `m2` is never below the one assigned to
`m1`, for every threshold configuration. -/
theorem c8_color_ladder_monotone (t : ColorThresholds) (m1 m2 : ℚ) (h : m1 ≤ m2) :
    colorTier (determine_color t m1) ≤ colorTier (determine_color t m2) := by
  unfold determine_color
  split_ifs <;> first
    | decide
    | (exfalso; linarith)

/-- Witness for C8 at the thresholds 350/300/220 and medians 100 ≤ 400. -/
theorem c8_color_ladder_monotone_witness :
    (100 : ℚ) ≤ 400 ∧
      colorTier (determine_color ⟨350, 300, 220⟩ 100) ≤
        colorTier (determine_color ⟨350, 300, 220⟩ 400) :=
  ⟨by norm_num, c8_color_ladder_monotone ⟨350, 300, 220⟩ 100 400 (by norm_num)⟩

/-- With no truthy price-per-area in the list, the truthiness filter
keeps nothing. -/
theorem truthyPrices_eq_nil :
    ∀ props : List Property,
      (∀ p ∈ props, optTruthy p.price_per_sqft = false) → truthyPrices props = [] := by
  intro props
  induction props with
  | nil => intro _; rfl
  | cons p ps ih =>
      intro hall
      unfold truthyPrices at ih ⊢
      rw [List.filterMap_cons]
      have hk : keepTruthyQ p.price_per_sqft = none := by
        simp [keepTruthyQ, hall p (List.mem_cons_self p ps)]
      simpa [hk] using ih (fun q hq => hall q (List.mem_cons_of_mem p hq))

/-- C10: price-opportunity scoring is total: a zero nearby average yields
score 0 (no division), and the nearby average of a list in which no
property has a truthy price-per-area is `0.0`. -/
theorem c10_price_scoring_total :
    (∀ land_price_sqft : ℚ, score_price_opportunity land_price_sqft 0 = 0) ∧
    (∀ properties : List Property,
      (∀ p ∈ properties, optTruthy p.price_per_sqft = false) →
        calculate_avg_nearby_price_sqft properties = 0) := by
  constructor
  · intro land
    simp [score_price_opportunity]
  · intro props hall
    unfold calculate_avg_nearby_price_sqft
    rw [truthyPrices_eq_nil props hall]

/-- Witness for C10: a list whose single property has price-per-area 0. -/
theorem c10_price_scoring_total_witness :
    score_price_opportunity 5 0 = 0 ∧
      calculate_avg_nearby_price_sqft
        [{ id := 1, street_name := "Elm", city := "Asheville", zip := "28801",
           latitude := some 35, longitude := some (-82),
           sale_price := none, list_price := some 100000,
           sqft := some 1000, price_per_sqft := some 0, lot_size := some 1,
           status := "active", sale_date := none, days_on_market := some 3,
           archived := false }] = 0 :=
  ⟨c10_price_scoring_total.1 5,
   c10_price_scoring_total.2 _ (by intro p hp; simp at hp; subst hp; rfl)⟩

/-- C4 counterexample: at active = 1204, sold-90d = 300 the exact
quotient 12.04 exceeds 12 (claim: cold) but the code rounds the inventory
to one decimal (12.0) before the ladder and reports stable. -/
theorem c4_counterexample :
    spec_market_status_exact 1204 300 0 = "cold" ∧
      market_status_from_counts 1204 300 0 0 = "stable" := by
  have harg : ((1204 : ℕ) : ℚ) / (((300 : ℕ) : ℚ) / 3) = 301/25 := by
    push_cast; norm_num
  constructor
  · simp only [spec_market_status_exact, harg]
    rw [if_pos (by norm_num)]
  · have hinv : calculate_inventory_months 1204 300 = 12 := by
      simp only [calculate_inventory_months]
      rw [if_neg (by norm_num), if_neg (by push_cast; norm_num), harg]
      have h120 : pyRoundHalfEven (10 * (301/25 : ℚ)) = 120 :=
        pyRoundHalfEven_eq (by norm_num) (by norm_num)
      simp only [pyRound1, h120]
      norm_num
    simp only [market_status_from_counts, determine_market_status, hinv]
    rw [if_neg (by norm_num), if_pos (by norm_num)]

/-- C4 (amended): for a postal area with at least one sale in the
trailing 90 days, the status is the fixed-order ladder applied to the
inventory rounded to one decimal digit, `round(active/(sold/3), 1)`, and
the days-on-market change never influences the status. -/
theorem c4_status_ladder (active sold : ℕ) (pc dc : ℚ) (h : sold ≠ 0) :
    (market_status_from_counts active sold pc dc =
      (let inventory := pyRound1 ((active : ℚ) / ((sold : ℚ) / 3))
       if inventory > 12 then "cold"
       else if inventory ≥ 6 then "stable"
       else if pc > 15 then "overheated"
       else "growing")) ∧
    (∀ dc' : ℚ, market_status_from_counts active sold pc dc =
      market_status_from_counts active sold pc dc') := by
  refine ⟨?_, fun dc' => rfl⟩
  have h0 : (0 : ℚ) < (sold : ℚ) := by exact_mod_cast Nat.pos_of_ne_zero h
  have hs : ((sold : ℚ) / 3) ≠ 0 := ne_of_gt (div_pos h0 (by norm_num))
  have hcalc : calculate_inventory_months active sold =
      pyRound1 ((active : ℚ) / ((sold : ℚ) / 3)) := by
    simp only [calculate_inventory_months]
    rw [if_neg h, if_neg hs]
  simp only [market_status_from_counts, determine_market_status, hcalc]

/-- Witness for C4 (amended): the claim's own scenario active = 20,
sold-90d = 4 gives inventory 15.0 and status cold. -/
theorem c4_status_ladder_witness :
    (4 : ℕ) ≠ 0 ∧ market_status_from_counts 20 4 0 0 = "cold" := by
  refine ⟨by decide, ?_⟩
  have h := (c4_status_ladder 20 4 0 0 (by decide)).1
  rw [h]
  have harg : ((20 : ℕ) : ℚ) / (((4 : ℕ) : ℚ) / 3) = 15 := by push_cast; norm_num
  have h150 : pyRoundHalfEven (10 * (15 : ℚ)) = 150 :=
    pyRoundHalfEven_eq (by norm_num) (by norm_num)
  simp only [harg, pyRound1, h150]
  rw [if_pos (by norm_num)]

/-- Clearing a falsy field does not change what the truthiness filter
keeps (price-per-sqft). -/
theorem keepTruthyQ_clear (p : Property) :
    keepTruthyQ (clear_falsy_fields p).price_per_sqft = keepTruthyQ p.price_per_sqft := by
  cases h : p.price_per_sqft with
  | none => simp [clear_falsy_fields, keepTruthyQ, optTruthy, h]
  | some v =>
      by_cases hv : v = 0 <;>
        simp [clear_falsy_fields, keepTruthyQ, optTruthy, h, hv]

/-- Clearing a falsy field does not change what the truthiness filter
keeps (days-on-market). -/
theorem keepTruthyZ_clear (p : Property) :
    keepTruthyZ (clear_falsy_fields p).days_on_market = keepTruthyZ p.days_on_market := by
  cases h : p.days_on_market with
  | none => simp [clear_falsy_fields, keepTruthyZ, optTruthyInt, h]
  | some v =>
      by_cases hv : v = 0 <;>
        simp [clear_falsy_fields, keepTruthyZ, optTruthyInt, h, hv]

/-- The truthiness filter on price-per-sqft does not distinguish a zero
value from an absent one. -/
theorem truthyPrices_map_clear (props : List Property) :
    truthyPrices (props.map clear_falsy_fields) = truthyPrices props := by
  induction props with
  | nil => rfl
  | cons p ps ih =>
      unfold truthyPrices at ih ⊢
      simp only [List.map_cons, List.filterMap_cons]
      rw [keepTruthyQ_clear, ih]

/-- The truthiness filter on days-on-market does not distinguish a zero
value from an absent one. -/
theorem truthyDoms_map_clear (props : List Property) :
    truthyDoms (props.map clear_falsy_fields) = truthyDoms props := by
  induction props with
  | nil => rfl
  | cons p ps ih =>
      unfold truthyDoms at ih ⊢
      simp only [List.map_cons, List.filterMap_cons]
      rw [keepTruthyZ_clear, ih]

/-- Every truthiness-filtered days-on-market value is nonzero. -/
theorem truthyDoms_ne_zero (props : List Property) :
    ∀ x ∈ truthyDoms props, x ≠ 0 := by
  intro x hx
  unfold truthyDoms at hx
  rw [List.mem_filterMap] at hx
  obtain ⟨p, _, hf⟩ := hx
  unfold keepTruthyZ at hf
  by_cases ht : optTruthyInt p.days_on_market
  · rw [if_pos ht] at hf
    rw [hf] at ht
    intro h0
    rw [h0] at ht
    simp [optTruthyInt] at ht
  · rw [if_neg ht] at hf
    exact absurd hf (by simp)

/-- The minimum of a nonempty list is one of its elements. -/
theorem listMin_mem {α : Type} [LinearOrder α] (d : α) (ds : List α) :
    listMin d ds ∈ d :: ds := by
  induction ds generalizing d with
  | nil => simp [listMin]
  | cons e es ih =>
      unfold listMin at ih ⊢
      rw [List.foldl_cons]
      rcases List.mem_cons.mp (ih (min d e)) with h1 | h1
      · rw [h1]
        rcases min_choice d e with h | h <;> simp [h]
      · simp [h1]

/-- C9: in the street metrics and in the nearby-average computation, a
comparable with price-per-area 0 or days-on-market 0 is excluded exactly
as if the value were absent (truthiness filter); consequently the reported
minimum days-on-market is never 0 (a same-day sale, days-on-market 0,
contributes no observation). -/
theorem c9_truthiness_zero_filters :
    (∀ properties : List Property,
      calculate_street_metrics (properties.map clear_falsy_fields) =
        calculate_street_metrics properties) ∧
    (∀ properties : List Property,
      calculate_avg_nearby_price_sqft (properties.map clear_falsy_fields) =
        calculate_avg_nearby_price_sqft properties) ∧
    (∀ (properties : List Property) (m : StreetMetrics),
      calculate_street_metrics properties = some m → m.min_dom ≠ some 0) := by
  refine ⟨?_, ?_, ?_⟩
  · intro props
    unfold calculate_street_metrics
    rw [truthyPrices_map_clear, truthyDoms_map_clear, List.length_map]
  · intro props
    unfold calculate_avg_nearby_price_sqft
    rw [truthyPrices_map_clear]
  · intro props m hm
    unfold calculate_street_metrics at hm
    cases htp : truthyPrices props with
    | nil => rw [htp] at hm; exact absurd hm (by simp)
    | cons q qs =>
        rw [htp] at hm
        have hmv := Option.some.inj hm
        cases htd : truthyDoms props with
        | nil => rw [htd] at hmv; rw [← hmv]; simp
        | cons d ds =>
            rw [htd] at hmv
            rw [← hmv]
            simp only [ne_eq, Option.some.injEq]
            intro h0
            have hmem : listMin d ds ∈ truthyDoms props := by
              rw [htd]; exact listMin_mem d ds
            exact truthyDoms_ne_zero props _ hmem h0

/-- Witness for C9 at a one-element list with a defined nonzero
price-per-area and days-on-market 5. -/
theorem c9_truthiness_zero_filters_witness :
    calculate_street_metrics
        [{ id := 1, street_name := "Elm", city := "Asheville", zip := "28801",
           latitude := some 35, longitude := some (-82),
           sale_price := some 100000, list_price := none,
           sqft := some 1000, price_per_sqft := some 300, lot_size := some 1,
           status := "sold", sale_date := some 0, days_on_market := some 5,
           archived := false }] = some ⟨300, 300, 300, 1, some 5, some 5, some 5⟩ ∧
      (some (5 : ℤ) : Option ℤ) ≠ some 0 := by
  have hcomp : calculate_street_metrics
      [{ id := 1, street_name := "Elm", city := "Asheville", zip := "28801",
         latitude := some 35, longitude := some (-82),
         sale_price := some 100000, list_price := none,
         sqft := some 1000, price_per_sqft := some 300, lot_size := some 1,
         status := "sold", sale_date := some 0, days_on_market := some 5,
         archived := false }] = some ⟨300, 300, 300, 1, some 5, some 5, some 5⟩ := by
    simp [calculate_street_metrics, truthyPrices, truthyDoms, keepTruthyQ, keepTruthyZ,
      optTruthy, optTruthyInt, npMedian, npMean, listMin, listMax, List.filterMap_cons]
  refine ⟨hcomp, ?_⟩
  exact c9_truthiness_zero_filters.2.2 _ _ hcomp

/-- The cache lookup after a cache write finds the written value. -/
theorem cacheLookup_insert (c : GeoCache) (a : String) (v : ℚ × ℚ) :
    cacheLookup (cacheInsert c a v) a = some v := by
  simp [cacheInsert, cacheLookup]

/-- After any `geocode_address` call, the normalized address maps to the
returned coordinate in the returned cache. -/
theorem geocode_address_caches (env : GeoEnv) (cache : GeoCache) (address : String) :
    cacheLookup (geocode_address env cache address).2.1 (env.norm address) =
      some (geocode_address env cache address).1 := by
  unfold geocode_address
  cases h : cacheLookup cache (env.norm address) with
  | some c => simp [h]
  | none =>
      rcases hp : primary_attempts env 3 0 with ⟨r, n⟩
      cases r with
      | some c => simp [h, hp, cacheLookup_insert]
      | none => simp [h, hp, cacheLookup_insert]

/-- C6 (amended): resolving twice with addresses that normalize to the
same key returns the identical coordinate both times, the second call is
answered from the cache, and the second call issues no outbound geocoder
calls.  (The first call may issue several: see the counterexample to the
"at most one outbound call in total" reading.) -/
theorem c6_resolve_cached_idempotent (env env' : GeoEnv) (cache : GeoCache)
    (a1 a2 : String) (h : env'.norm a2 = env.norm a1) :
    (geocode_address env' (geocode_address env cache a1).2.1 a2).1 =
        (geocode_address env cache a1).1 ∧
    (geocode_address env' (geocode_address env cache a1).2.1 a2).2.2 = 0 ∧
    cacheLookup (geocode_address env cache a1).2.1 (env.norm a1) =
        some (geocode_address env cache a1).1 := by
  have hc := geocode_address_caches env cache a1
  rcases hEq : geocode_address env cache a1 with ⟨c, st, n⟩
  rw [hEq] at hc
  simp only at hc ⊢
  have hsecond : geocode_address env' st a2 = (c, st, 0) := by
    simp only [geocode_address, h, hc]
  rw [hsecond]
  exact ⟨rfl, rfl, hc⟩

/-- Witness for C6 (amended): same raw address twice in the same
environment. -/
theorem c6_resolve_cached_idempotent_witness :
    (let env : GeoEnv :=
      ⟨fun s => s, fun _ => GeoResp.notFound, fun _ _ => false, false, (0, 0), (0, 0), (0, 0)⟩
     (geocode_address env (geocode_address env [] ("290 Macon Ave")).2.1 ("290 Macon Ave")).1 =
       (geocode_address env [] ("290 Macon Ave")).1) :=
  (c6_resolve_cached_idempotent _ _ [] ("290 Macon Ave") ("290 Macon Ave") rfl).1

/-- C1: the evaluation returns a record exactly when all ten eligibility
filters pass, and the repository record for the parcel is left unchanged
whenever the evaluation rejects (returns `none`): on rejection the
persisted state equals `existing`, on success it equals the returned
record. -/
theorem c1_filters_gate_persistence (filters : LandFilter) (weights : UrgencyWeights)
    (levels : UrgencyLevels) (dist : ℚ → ℚ → ℚ → ℚ → ℚ) (now : ℤ)
    (street_analysis : Option StreetAnalysis) (market_heat : Option MarketHeatZone)
    (all_properties : List Property) (existing : Option LandOpportunity) (p : Property) :
    ((evaluate_land_opportunity filters weights levels dist now street_analysis market_heat
        all_properties existing p).1.isSome =
      land_filters_pass filters dist now street_analysis market_heat all_properties p) ∧
    ((evaluate_land_opportunity filters weights levels dist now street_analysis market_heat
        all_properties existing p).2 =
      if (evaluate_land_opportunity filters weights levels dist now street_analysis market_heat
          all_properties existing p).1.isSome then
        (evaluate_land_opportunity filters weights levels dist now street_analysis market_heat
          all_properties existing p).1
      else existing) := by
  rcases street_analysis with _ | sa
  · refine ⟨?_, ?_⟩ <;>
      · simp only [evaluate_land_opportunity, land_filters_pass]
        split_ifs <;> simp_all
  rcases market_heat with _ | mh
  · refine ⟨?_, ?_⟩ <;>
      · simp only [evaluate_land_opportunity, land_filters_pass]
        split_ifs <;> simp_all
  simp only [evaluate_land_opportunity, land_filters_pass]
  by_cases hlat : optTruthy p.latitude
  case neg => simp [hlat]
  by_cases hlon : optTruthy p.longitude
  case neg => simp [hlat, hlon]
  by_cases hpr : optTruthy (pyOr p.list_price p.sale_price)
  case neg => simp [hlat, hlon, hpr]
  by_cases hprm : (pyOr p.list_price p.sale_price).getD 0 ≤ filters.max_price
  case neg =>
    have hgt : filters.max_price < (pyOr p.list_price p.sale_price).getD 0 :=
      not_le.mp hprm
    simp [hlat, hlon, hpr, hprm, hgt]
  have hprm' : ¬(filters.max_price < (pyOr p.list_price p.sale_price).getD 0) :=
    not_lt.mpr hprm
  by_cases hlot1 : optTruthy p.lot_size
  case neg => simp [hlat, hlon, hpr, hprm, hprm', hlot1]
  by_cases hlot2 : p.lot_size.getD 0 < filters.min_lot_size
  case pos =>
    simp [hlat, hlon, hpr, hprm, hprm', hlot1, hlot2, not_le.mpr hlot2]
  have hlot2' : filters.min_lot_size ≤ p.lot_size.getD 0 := not_lt.mp hlot2
  by_cases hzc : sa.color ∈ filters.allowed_zone_colors
  case neg => simp [hlat, hlon, hpr, hprm, hprm', hlot1, hlot2, hlot2', hzc]
  by_cases hms : mh.market_status ∈ filters.market_heat_allowed
  case neg => simp [hlat, hlon, hpr, hprm, hprm', hlot1, hlot2, hlot2', hzc, hms]
  by_cases hlen : get_nearby_properties dist now all_properties
      (p.latitude.getD 0) (p.longitude.getD 0) 5 = []
  case pos =>
    simp [hlat, hlon, hpr, hprm, hprm', hlot1, hlot2, hlot2', hzc, hms, hlen]
  by_cases havg : calculate_avg_nearby_price_sqft (get_nearby_properties dist now
      all_properties (p.latitude.getD 0) (p.longitude.getD 0) 5) <
      filters.min_nearby_price_sqft
  case pos =>
    simp [hlat, hlon, hpr, hprm, hprm', hlot1, hlot2, hlot2', hzc, hms, hlen, havg,
      not_le.mpr havg]
  have havg' : filters.min_nearby_price_sqft ≤ calculate_avg_nearby_price_sqft
      (get_nearby_properties dist now all_properties (p.latitude.getD 0)
        (p.longitude.getD 0) 5) := not_lt.mp havg
  by_cases hrec : count_recent_sales now (get_nearby_properties dist now all_properties
      (p.latitude.getD 0) (p.longitude.getD 0) 5) < filters.min_recent_sales
  case pos =>
    simp [hlat, hlon, hpr, hprm, hprm', hlot1, hlot2, hlot2', hzc, hms, hlen, havg,
      havg', hrec, not_le.mpr hrec]
  have hrec' : filters.min_recent_sales ≤ count_recent_sales now (get_nearby_properties
      dist now all_properties (p.latitude.getD 0) (p.longitude.getD 0) 5) :=
    not_lt.mp hrec
  rcases existing with _ | e <;>
    simp [hlat, hlon, hpr, hprm, hprm', hlot1, hlot2, hlot2', hzc, hms, hlen, havg,
      havg', hrec, hrec']

set_option maxHeartbeats 1000000 in
/-- C5: for every parcel that passes all filters, the persisted urgency
score is the banker's rounding of the weighted sum of the four factor
scores (zone lookup, market lookup, price-ratio ladder, activity ladder,
each with default 0 on unknown keys), and the urgency level is the
two-threshold ladder on the score. -/
theorem c5_urgency_scoring (filters : LandFilter) (weights : UrgencyWeights)
    (levels : UrgencyLevels) (dist : ℚ → ℚ → ℚ → ℚ → ℚ) (now : ℤ)
    (sa : StreetAnalysis) (mh : MarketHeatZone) (all_properties : List Property)
    (existing : Option LandOpportunity) (p : Property) (r : LandOpportunity)
    (rp : Option LandOpportunity)
    (h : evaluate_land_opportunity filters weights levels dist now (some sa) (some mh)
      all_properties existing p = (some r, rp)) :
    (score_zone_color "green" = 100 ∧ score_zone_color "light_green" = 75 ∧
      score_zone_color "yellow" = 50 ∧ score_zone_color "red" = 0 ∧
      score_zone_color "unknown" = 0 ∧
      score_market_heat "growing" = 100 ∧ score_market_heat "stable" = 80 ∧
      score_market_heat "cold" = 50 ∧ score_market_heat "overheated" = 0 ∧
      score_market_heat "unknown" = 0) ∧
    r.urgency_score =
      pyRoundHalfEven
        ((score_zone_color sa.color : ℚ) * weights.zone_color +
         (score_market_heat mh.market_status : ℚ) * weights.market_heat +
         (score_price_opportunity
            (land_price_sqft_of p ((pyOr p.list_price p.sale_price).getD 0))
            (calculate_avg_nearby_price_sqft (get_nearby_properties dist now
              all_properties (p.latitude.getD 0) (p.longitude.getD 0) 5)) : ℚ) *
           weights.price_opportunity +
         ((if count_recent_sales now (get_nearby_properties dist now all_properties
              (p.latitude.getD 0) (p.longitude.getD 0) 5) ≥ 5 then (100 : ℕ)
           else if count_recent_sales now (get_nearby_properties dist now all_properties
              (p.latitude.getD 0) (p.longitude.getD 0) 5) ≥ 3 then 75
           else if count_recent_sales now (get_nearby_properties dist now all_properties
              (p.latitude.getD 0) (p.longitude.getD 0) 5) ≥ 1 then 50
           else 0) : ℚ) * weights.recent_sales) ∧
    r.urgency_level =
      (if r.urgency_score ≥ levels.urgent then "urgent"
       else if r.urgency_score ≥ levels.good then "good"
       else "normal") := by
  refine ⟨⟨rfl, rfl, rfl, rfl, rfl, rfl, rfl, rfl, rfl, rfl⟩, ?_⟩
  simp only [evaluate_land_opportunity] at h
  by_cases hlat : optTruthy p.latitude
  case neg => simp [hlat] at h
  by_cases hlon : optTruthy p.longitude
  case neg => simp [hlat, hlon] at h
  by_cases hpr : optTruthy (pyOr p.list_price p.sale_price)
  case neg => simp [hlat, hlon, hpr] at h
  by_cases hprm : (pyOr p.list_price p.sale_price).getD 0 ≤ filters.max_price
  case neg => simp [hlat, hlon, hpr, not_le.mp hprm] at h
  have hprm' : ¬(filters.max_price < (pyOr p.list_price p.sale_price).getD 0) :=
    not_lt.mpr hprm
  by_cases hlot1 : optTruthy p.lot_size
  case neg => simp [hlat, hlon, hpr, hprm', hlot1] at h
  by_cases hlot2 : p.lot_size.getD 0 < filters.min_lot_size
  case pos => simp [hlat, hlon, hpr, hprm', hlot1, hlot2] at h
  by_cases hzc : sa.color ∈ filters.allowed_zone_colors
  case neg => simp [hlat, hlon, hpr, hprm', hlot1, hlot2, hzc] at h
  by_cases hms : mh.market_status ∈ filters.market_heat_allowed
  case neg => simp [hlat, hlon, hpr, hprm', hlot1, hlot2, hzc, hms] at h
  by_cases hlen : get_nearby_properties dist now all_properties
      (p.latitude.getD 0) (p.longitude.getD 0) 5 = []
  case pos => simp [hlat, hlon, hpr, hprm', hlot1, hlot2, hzc, hms, hlen] at h
  by_cases havg : calculate_avg_nearby_price_sqft (get_nearby_properties dist now
      all_properties (p.latitude.getD 0) (p.longitude.getD 0) 5) <
      filters.min_nearby_price_sqft
  case pos => simp [hlat, hlon, hpr, hprm', hlot1, hlot2, hzc, hms, hlen, havg] at h
  by_cases hrec : count_recent_sales now (get_nearby_properties dist now all_properties
      (p.latitude.getD 0) (p.longitude.getD 0) 5) < filters.min_recent_sales
  case pos =>
    simp [hlat, hlon, hpr, hprm', hlot1, hlot2, hzc, hms, hlen, havg, hrec] at h
  rcases existing with _ | e <;>
    · simp [hlat, hlon, hpr, hprm', hlot1, hlot2, hzc, hms, hlen, havg, hrec,
        Prod.mk.injEq, Option.some.injEq] at h
      rw [← h.1]
      simp [calculate_land_score]

/-- Witness for C5: a concrete parcel passing all ten filters with
weights (1,1,1,1); factors zone=100, market=100, price=100, activity=50,
total 350, level urgent. -/
theorem c5_urgency_scoring_witness :
    evaluate_land_opportunity ⟨150000, 1, ["green"], ["growing"], 100, 1⟩ ⟨1, 1, 1, 1⟩
        ⟨80, 60⟩ (fun _ _ _ _ => 0) 1000
        (some ⟨"Elm", "Asheville", 300, 300, 300, none, none, none, "green", 3, 3/10⟩)
        (some ⟨"28801", 10, 5, 6, 0, 0, "growing", "r"⟩)
        [⟨2, "Elm", "Asheville", "28801", some 35, some (-82), some 300000, none,
          some 1000, some 300, none, "sold", some 990, some 10, false⟩] none
        ⟨7, "Elm", "Asheville", "28801", some 35, some (-82), none, some 100000, none,
          none, some 2, "active", none, none, false⟩ =
      (some ⟨7, 350, "urgent", "green", "growing", 300, 1,
        "Участок в green зоне, рынок growing", 1000⟩,
       some ⟨7, 350, "urgent", "green", "growing", 300, 1,
        "Участок в green зоне, рынок growing", 1000⟩) ∧
    (⟨7, 350, "urgent", "green", "growing", 300, 1,
      "Участок в green зоне, рынок growing", 1000⟩ : LandOpportunity).urgency_score =
      pyRoundHalfEven ((100 : ℚ) * 1 + (100 : ℚ) * 1 + (100 : ℚ) * 1 + (50 : ℚ) * 1) := by
  have h350 : pyRoundHalfEven (350 : ℚ) = 350 :=
    pyRoundHalfEven_eq (by norm_num) (by norm_num)
  have hnear : get_nearby_properties (fun _ _ _ _ => 0) 1000
      [⟨2, "Elm", "Asheville", "28801", some 35, some (-82), some 300000, none,
        some 1000, some 300, none, "sold", some 990, some 10, false⟩] 35 (-82) 5 =
      [⟨2, "Elm", "Asheville", "28801", some 35, some (-82), some 300000, none,
        some 1000, some 300, none, "sold", some 990, some 10, false⟩] := by
    norm_num [get_nearby_properties, List.filter]
  have h : evaluate_land_opportunity ⟨150000, 1, ["green"], ["growing"], 100, 1⟩
      ⟨1, 1, 1, 1⟩ ⟨80, 60⟩ (fun _ _ _ _ => 0) 1000
      (some ⟨"Elm", "Asheville", 300, 300, 300, none, none, none, "green", 3, 3/10⟩)
      (some ⟨"28801", 10, 5, 6, 0, 0, "growing", "r"⟩)
      [⟨2, "Elm", "Asheville", "28801", some 35, some (-82), some 300000, none,
        some 1000, some 300, none, "sold", some 990, some 10, false⟩] none
      ⟨7, "Elm", "Asheville", "28801", some 35, some (-82), none, some 100000, none,
        none, some 2, "active", none, none, false⟩ =
      (some ⟨7, 350, "urgent", "green", "growing", 300, 1,
        "Участок в green зоне, рынок growing", 1000⟩,
       some ⟨7, 350, "urgent", "green", "growing", 300, 1,
        "Участок в green зоне, рынок growing", 1000⟩) := by
    norm_num [evaluate_land_opportunity, hnear, optTruthy, pyOr,
      calculate_avg_nearby_price_sqft, count_recent_sales, truthyPrices, keepTruthyQ,
      npMean, land_price_sqft_of, calculate_land_score, score_zone_color,
      score_market_heat, score_price_opportunity, List.filterMap_cons, List.filter,
      h350]
    rfl
  refine ⟨h, ?_⟩
  have h2 := (c5_urgency_scoring _ _ _ _ _ _ _ _ _ _ _ _ h).2.1
  rw [h2]
  norm_num [hnear, score_zone_color, score_market_heat, score_price_opportunity,
    land_price_sqft_of, optTruthy, pyOr, calculate_avg_nearby_price_sqft,
    count_recent_sales, truthyPrices, keepTruthyQ, npMean, List.filterMap_cons,
    List.filter]

/-- C3 counterexample: a parcel with sale price 100000 and list price
200000 under max-price 150000 and with every other filter passing.  Under
the claim's sale-first price selection it passes step 4 (and all ten
filters), yet the code rejects it and persists nothing, because the code
uses the list price first. -/
theorem c3_counterexample :
    evaluate_land_opportunity ⟨150000, 1, ["green"], ["growing"], 100, 1⟩ ⟨1, 1, 1, 1⟩
        ⟨80, 60⟩ (fun _ _ _ _ => 0) 1000
        (some ⟨"Elm", "Asheville", 300, 300, 300, none, none, none, "green", 3, 3/10⟩)
        (some ⟨"28801", 10, 5, 6, 0, 0, "growing", "r"⟩)
        [⟨2, "Elm", "Asheville", "28801", some 35, some (-82), some 300000, none,
          some 1000, some 300, none, "sold", some 990, some 10, false⟩] none
        ⟨7, "Elm", "Asheville", "28801", some 35, some (-82), some 100000, some 200000,
          none, none, some 2, "active", none, none, false⟩ = (none, none) ∧
    land_filters_pass_sale_first ⟨150000, 1, ["green"], ["growing"], 100, 1⟩
        (fun _ _ _ _ => 0) 1000
        (some ⟨"Elm", "Asheville", 300, 300, 300, none, none, none, "green", 3, 3/10⟩)
        (some ⟨"28801", 10, 5, 6, 0, 0, "growing", "r"⟩)
        [⟨2, "Elm", "Asheville", "28801", some 35, some (-82), some 300000, none,
          some 1000, some 300, none, "sold", some 990, some 10, false⟩]
        ⟨7, "Elm", "Asheville", "28801", some 35, some (-82), some 100000, some 200000,
          none, none, some 2, "active", none, none, false⟩ = true := by
  constructor
  · norm_num [evaluate_land_opportunity, optTruthy, pyOr]
  · norm_num [land_filters_pass_sale_first, optTruthy, pyOr, get_nearby_properties,
      List.filter, calculate_avg_nearby_price_sqft, count_recent_sales, truthyPrices,
      keepTruthyQ, npMean, List.filterMap_cons]

/-- C3 (amended): the price used by filter step 4 is the parcel's LIST
price when truthy, otherwise its SALE price (`list_price or sale_price`);
the parcel is rejected, with no record persisted, when this effective
price is absent or zero or greater than the configured maximum.  In
particular, when the list price is truthy the evaluation ignores the sale
price entirely. -/
theorem c3_price_gate_list_first (filters : LandFilter) (weights : UrgencyWeights)
    (levels : UrgencyLevels) (dist : ℚ → ℚ → ℚ → ℚ → ℚ) (now : ℤ)
    (street_analysis : Option StreetAnalysis) (market_heat : Option MarketHeatZone)
    (all_properties : List Property) (existing : Option LandOpportunity) (p : Property) :
    ((optTruthy (pyOr p.list_price p.sale_price) = false ∨
        filters.max_price < (pyOr p.list_price p.sale_price).getD 0) →
      evaluate_land_opportunity filters weights levels dist now street_analysis
        market_heat all_properties existing p = (none, existing)) ∧
    (optTruthy p.list_price = true →
      ∀ sp : Option ℚ,
        evaluate_land_opportunity filters weights levels dist now street_analysis
          market_heat all_properties existing { p with sale_price := sp } =
        evaluate_land_opportunity filters weights levels dist now street_analysis
          market_heat all_properties existing p) := by
  constructor
  · intro h
    rcases street_analysis with _ | sa
    · simp only [evaluate_land_opportunity]
      split_ifs <;> rfl
    rcases market_heat with _ | mh
    · simp only [evaluate_land_opportunity]
      split_ifs <;> rfl
    simp only [evaluate_land_opportunity]
    by_cases hlat : optTruthy p.latitude
    case neg => simp [hlat]
    by_cases hlon : optTruthy p.longitude
    case neg => simp [hlat, hlon]
    rcases h with h | h
    · simp [hlat, hlon, h]
    · simp [hlat, hlon, h]
  · intro hlist sp
    have h1 : pyOr p.list_price sp = p.list_price := by simp [pyOr, hlist]
    have h2 : pyOr p.list_price p.sale_price = p.list_price := by simp [pyOr, hlist]
    dsimp only [evaluate_land_opportunity, land_price_sqft_of]
    rw [h1, h2]

/-- Witness for C3 (amended): a parcel whose list price is 0 and whose
sale price is absent is rejected with nothing persisted (the effective
price `list_price or sale_price` is falsy). -/
theorem c3_price_gate_list_first_witness :
    evaluate_land_opportunity ⟨150000, 1, ["green"], ["growing"], 100, 1⟩ ⟨1, 1, 1, 1⟩
        ⟨80, 60⟩ (fun _ _ _ _ => 0) 1000 none none [] none
        ⟨7, "Elm", "Asheville", "28801", some 35, some (-82), none, some 0,
          none, none, some 2, "active", none, none, false⟩ = (none, none) :=
  (c3_price_gate_list_first _ _ _ _ _ _ _ _ _ _).1
    (Or.inl (by simp [pyOr, optTruthy]))

/-- C6 counterexample: with an uncached address on which the primary
geocoder finds nothing and the street-only fallback also finds nothing,
the first call already issues two outbound geocoder calls, so "at most one
outbound geocoder call in total across the two calls" fails (the second
call still issues none). -/
theorem c6_counterexample :
    (let env : GeoEnv :=
      ⟨fun s => s, fun _ => GeoResp.notFound, fun _ _ => false, false, (0, 0), (0, 0), (0, 0)⟩
     let r1 := geocode_address env [] ("290 Macon Ave")
     let r2 := geocode_address env r1.2.1 ("290 Macon Ave")
     r1.2.2 + r2.2.2 = 2 ∧ ¬(r1.2.2 + r2.2.2 ≤ 1)) := by
  constructor <;> decide

/-! ## Real-analysis helpers for the distance theorems -/

/-- `arctan x ≤ x` for nonnegative `x`. -/
theorem arctan_le_self {x : ℝ} (hx : 0 ≤ x) : Real.arctan x ≤ x := by
  rcases eq_or_lt_of_le hx with h | h
  · rw [← h, Real.arctan_zero]
  · have h1 : 0 < Real.arctan x := by
      have h2 := Real.arctan_strictMono h
      rwa [Real.arctan_zero] at h2
    have h2 := Real.lt_tan h1 (Real.arctan_lt_pi_div_two x)
    rw [Real.tan_arctan] at h2
    exact le_of_lt h2

/-- `x ≤ arcsin x` on `[0, 1]`. -/
theorem self_le_arcsin {x : ℝ} (h0 : 0 ≤ x) (h1 : x ≤ 1) : x ≤ Real.arcsin x := by
  have hs : Real.sin (Real.arcsin x) = x := Real.sin_arcsin (by linarith) h1
  have hnn : 0 ≤ Real.arcsin x := Real.arcsin_nonneg.mpr h0
  calc x = Real.sin (Real.arcsin x) := hs.symm
    _ ≤ Real.arcsin x := Real.sin_le hnn

/-- `arcsin x ≤ x / √(1 - x²)` on `[0, 1)`. -/
theorem arcsin_le_div {x : ℝ} (h0 : 0 ≤ x) (h1 : x < 1) :
    Real.arcsin x ≤ x / Real.sqrt (1 - x ^ 2) := by
  rw [Real.arcsin_eq_arctan ⟨by linarith, h1⟩]
  exact arctan_le_self (div_nonneg h0 (Real.sqrt_nonneg _))

/-- The `atan2 (√a) (√(1-a))` used by the haversine formula equals
`arcsin (√a)` on `[0, 1]`. -/
theorem atan2_sqrt_eq_arcsin {a : ℝ} (h0 : 0 ≤ a) (h1 : a ≤ 1) :
    atan2 (Real.sqrt a) (Real.sqrt (1 - a)) = Real.arcsin (Real.sqrt a) := by
  rcases lt_or_eq_of_le h1 with h | h
  · have hpos : 0 < Real.sqrt (1 - a) := Real.sqrt_pos.mpr (by linarith)
    unfold atan2
    rw [if_pos hpos, Real.arcsin_eq_arctan]
    · rw [Real.sq_sqrt h0]
    · refine ⟨by have := Real.sqrt_nonneg a; linarith, ?_⟩
      have h2 : Real.sqrt a < Real.sqrt 1 := Real.sqrt_lt_sqrt h0 (by linarith)
      rwa [Real.sqrt_one] at h2
  · subst h
    rw [sub_self, Real.sqrt_zero, Real.sqrt_one, Real.arcsin_one]
    unfold atan2
    norm_num

/-- `|sin x| = sin |x|` for `|x| ≤ π`. -/
theorem abs_sin_eq_sin_abs {x : ℝ} (hx : |x| ≤ Real.pi) : |Real.sin x| = Real.sin |x| := by
  rcases le_or_lt 0 x with h | h
  · rw [abs_of_nonneg h, abs_of_nonneg]
    exact Real.sin_nonneg_of_nonneg_of_le_pi h (by rwa [abs_of_nonneg h] at hx)
  · have hge : -Real.pi ≤ x := by
      have := neg_le_of_abs_le hx
      linarith
    rw [abs_of_neg h, Real.sin_neg,
      abs_of_nonpos (Real.sin_nonpos_of_nonnpos_of_neg_pi_le (le_of_lt h) hge)]

/-- Product of cosines bounded by the squared half-angle cosine of the
difference. -/
theorem cos_mul_cos_le {a b : ℝ} :
    Real.cos a * Real.cos b ≤ Real.cos ((b - a) / 2) ^ 2 := by
  have h1 : Real.cos (a - b) + Real.cos (a + b) = 2 * (Real.cos a * Real.cos b) := by
    rw [Real.cos_add, Real.cos_sub]; ring
  have h2 : Real.cos ((b - a) / 2) ^ 2 = 1 / 2 + Real.cos (b - a) / 2 := by
    rw [Real.cos_sq]
    rw [show 2 * ((b - a) / 2) = b - a from by ring]
  have h3 : Real.cos (a + b) ≤ 1 := Real.cos_le_one _
  have h4 : Real.cos (a - b) = Real.cos (b - a) := by
    rw [← Real.cos_neg (a - b)]
    rw [show -(a - b) = b - a from by ring]
  nlinarith

/-- The haversine intermediate value `a` never exceeds 1. -/
theorem hav_sum_le_one (p q y : ℝ) :
    Real.sin ((q - p) / 2) ^ 2 + Real.cos p * Real.cos q * Real.sin y ^ 2 ≤ 1 := by
  have hprod : Real.cos p * Real.cos q ≤ Real.cos ((q - p) / 2) ^ 2 := cos_mul_cos_le
  have hsc := Real.sin_sq_add_cos_sq ((q - p) / 2)
  have hy1 : Real.sin y ^ 2 ≤ 1 := Real.sin_sq_le_one y
  have hy0 : 0 ≤ Real.sin y ^ 2 := sq_nonneg _
  rcases le_or_lt 0 (Real.cos p * Real.cos q) with h | h
  · nlinarith
  · nlinarith

/-- The unvalidated last-resort jitter displaces the coordinate by at
most 5 miles (jitter of at most 0.05° in each coordinate). -/
theorem haversine_center_jitter_le_five (clat clon a b : ℝ)
    (ha : |a| ≤ 1/20) (hb : |b| ≤ 1/20) :
    haversine_distance clat clon (clat + a) (clon + b) ≤ 5 := by
  have hpi : Real.pi < 3.15 := Real.pi_lt_315
  have hpi0 : 0 < Real.pi := Real.pi_pos
  simp only [haversine_distance, radians]
  rw [show clat + a - clat = a from by ring, show clon + b - clon = b from by ring]
  set A := Real.sin (a * Real.pi / 180 / 2) ^ 2 +
      Real.cos (clat * Real.pi / 180) * Real.cos ((clat + a) * Real.pi / 180) *
        Real.sin (b * Real.pi / 180 / 2) ^ 2 with hA
  have habs1 : |a * Real.pi / 180 / 2| ≤ 7 / 16000 := by
    rw [abs_div, abs_div, abs_mul, abs_of_pos hpi0]
    rw [show |(180 : ℝ)| = 180 from by norm_num, show |(2 : ℝ)| = 2 from by norm_num]
    have : |a| * Real.pi ≤ (1/20) * 3.15 := by
      apply mul_le_mul ha (le_of_lt hpi) (le_of_lt hpi0) (by norm_num)
    nlinarith [abs_nonneg a]
  have habs2 : |b * Real.pi / 180 / 2| ≤ 7 / 16000 := by
    rw [abs_div, abs_div, abs_mul, abs_of_pos hpi0]
    rw [show |(180 : ℝ)| = 180 from by norm_num, show |(2 : ℝ)| = 2 from by norm_num]
    have : |b| * Real.pi ≤ (1/20) * 3.15 := by
      apply mul_le_mul hb (le_of_lt hpi) (le_of_lt hpi0) (by norm_num)
    nlinarith [abs_nonneg b]
  have ht1 : Real.sin (a * Real.pi / 180 / 2) ^ 2 ≤ (7/16000) ^ 2 := by
    have h1 : Real.sin (a * Real.pi / 180 / 2) ^ 2 ≤ (a * Real.pi / 180 / 2) ^ 2 :=
      Real.sin_sq_le_sq
    have hab := abs_le.mp habs1
    have h2 : (a * Real.pi / 180 / 2) ^ 2 ≤ (7/16000) ^ 2 := sq_le_sq' hab.1 hab.2
    linarith
  have ht2 : Real.cos (clat * Real.pi / 180) * Real.cos ((clat + a) * Real.pi / 180) *
      Real.sin (b * Real.pi / 180 / 2) ^ 2 ≤ (7/16000) ^ 2 := by
    have hcc : Real.cos (clat * Real.pi / 180) * Real.cos ((clat + a) * Real.pi / 180) ≤ 1 := by
      calc Real.cos (clat * Real.pi / 180) * Real.cos ((clat + a) * Real.pi / 180) ≤
          |Real.cos (clat * Real.pi / 180) * Real.cos ((clat + a) * Real.pi / 180)| :=
            le_abs_self _
        _ = |Real.cos (clat * Real.pi / 180)| * |Real.cos ((clat + a) * Real.pi / 180)| :=
            abs_mul _ _
        _ ≤ 1 * 1 := by
            apply mul_le_mul (Real.abs_cos_le_one _) (Real.abs_cos_le_one _)
              (abs_nonneg _) (by norm_num)
        _ = 1 := by norm_num
    have hs2 : Real.sin (b * Real.pi / 180 / 2) ^ 2 ≤ (7/16000) ^ 2 := by
      have h1 : Real.sin (b * Real.pi / 180 / 2) ^ 2 ≤ (b * Real.pi / 180 / 2) ^ 2 :=
        Real.sin_sq_le_sq
      have hab := abs_le.mp habs2
      have h2 : (b * Real.pi / 180 / 2) ^ 2 ≤ (7/16000) ^ 2 := sq_le_sq' hab.1 hab.2
      linarith
    nlinarith [sq_nonneg (Real.sin (b * Real.pi / 180 / 2))]
  have hA_ub : A ≤ 49/128000000 := by
    rw [hA]; nlinarith [ht1, ht2]
  have hsA : Real.sqrt A ≤ 1/1600 := by
    calc Real.sqrt A ≤ Real.sqrt (49/128000000) := Real.sqrt_le_sqrt hA_ub
      _ ≤ Real.sqrt ((1/1600) ^ 2) := Real.sqrt_le_sqrt (by norm_num)
      _ = 1/1600 := Real.sqrt_sq (by norm_num)
  have h1A : (9999/10000 : ℝ) ≤ Real.sqrt (1 - A) := by
    rw [show (9999/10000 : ℝ) = Real.sqrt ((9999/10000) ^ 2) from
      (Real.sqrt_sq (by norm_num)).symm]
    exact Real.sqrt_le_sqrt (by nlinarith [hA_ub])
  have hpos : 0 < Real.sqrt (1 - A) := lt_of_lt_of_le (by norm_num) h1A
  unfold atan2
  rw [if_pos hpos]
  have harc : Real.arctan (Real.sqrt A / Real.sqrt (1 - A)) ≤
      Real.sqrt A / Real.sqrt (1 - A) :=
    arctan_le_self (div_nonneg (Real.sqrt_nonneg _) (le_of_lt hpos))
  have hdiv : Real.sqrt A / Real.sqrt (1 - A) ≤ (1/1600) / (9999/10000) :=
    div_le_div (by norm_num) hsA (by norm_num) h1A
  nlinarith [harc, hdiv]


/-- C2 (amended): the fallback chain always terminates with some
coordinate; the first two tiers are validated by the plausibility check,
and the unvalidated last-resort tier (reference center plus ±0.05°
jitter) also lies within the configured validity radius provided that
radius is at least 5 miles.  (For a smaller radius the bound can fail:
see the counterexample.) -/
theorem c2_fallback_plausible (cfg : GeoConfig) (street_resp zip_resp : Option (ℝ × ℝ))
    (zip_found : Bool) (j2 j3 : ℝ × ℝ) (h3a : |j3.1| ≤ 1/20) (h3b : |j3.2| ≤ 1/20)
    (hr : 5 ≤ cfg.radius_miles) :
    validate_coordinates cfg
      (fallback_geocode cfg street_resp zip_found zip_resp j2 j3).1
      (fallback_geocode cfg street_resp zip_found zip_resp j2 j3).2 := by
  have htier3 : validate_coordinates cfg (cfg.center_lat + j3.1) (cfg.center_lon + j3.2) := by
    unfold validate_coordinates
    exact le_trans (haversine_center_jitter_le_five _ _ _ _ h3a h3b) hr
  unfold fallback_geocode
  rcases street_resp with _ | ⟨slat, slon⟩ <;>
    rcases zip_resp with _ | ⟨zlat, zlon⟩ <;>
      cases zip_found <;>
        (dsimp only; split_ifs <;> first | assumption | exact htier3)

/-- Witness for C2 (amended): reference center (35.5951, -82.5515) with
radius 30 miles and a nonsense address on which every geocoder query
fails; the zero-jitter last-resort result is validated. -/
theorem c2_fallback_plausible_witness :
    validate_coordinates ⟨35.5951, -82.5515, 30⟩
      (fallback_geocode ⟨35.5951, -82.5515, 30⟩ none false none (0, 0) (0, 0)).1
      (fallback_geocode ⟨35.5951, -82.5515, 30⟩ none false none (0, 0) (0, 0)).2 :=
  c2_fallback_plausible ⟨35.5951, -82.5515, 30⟩ none none false (0, 0) (0, 0)
    (by norm_num) (by norm_num) (by norm_num)

/-- C2 counterexample: with a configured validity radius of 1 mile, the
last-resort tier (center plus jitter +0.05° latitude) returns a
coordinate about 3.45 miles from the center, outside the radius — the
claim that the resolved coordinate always satisfies the plausibility
bound fails because tier 3 is returned without validation. -/
theorem c2_counterexample :
    ¬ validate_coordinates ⟨35.5951, -82.5515, 1⟩
      (fallback_geocode ⟨35.5951, -82.5515, 1⟩ none false none (0, 0) (1/20, 0)).1
      (fallback_geocode ⟨35.5951, -82.5515, 1⟩ none false none (0, 0) (1/20, 0)).2 := by
  have hres : fallback_geocode ⟨35.5951, -82.5515, 1⟩ none false none (0, 0) (1/20, 0) =
      (35.5951 + 1/20, -82.5515 + 0) := by
    unfold fallback_geocode
    norm_num
  rw [hres]
  unfold validate_coordinates
  simp only [haversine_distance, radians]
  rw [show (35.5951 : ℝ) + 1/20 - 35.5951 = 1/20 from by ring,
    show (-82.5515 : ℝ) + 0 - -82.5515 = 0 from by ring]
  rw [show (0 : ℝ) * Real.pi / 180 / 2 = 0 from by ring, Real.sin_zero]
  rw [show (1/20 : ℝ) * Real.pi / 180 / 2 = Real.pi / 7200 from by ring]
  have hpi0 : 0 < Real.pi := Real.pi_pos
  have hx0 : 0 < Real.pi / 7200 := by positivity
  have hxlt : Real.pi / 7200 < Real.pi / 2 := by
    apply div_lt_div_of_pos_left hpi0 <;> norm_num
  have hsin0 : 0 ≤ Real.sin (Real.pi / 7200) :=
    Real.sin_nonneg_of_nonneg_of_le_pi (le_of_lt hx0)
      (by nlinarith)
  have hA : Real.sin (Real.pi / 7200) ^ 2 +
      Real.cos (35.5951 * Real.pi / 180) * Real.cos ((35.5951 + 1/20) * Real.pi / 180) *
        0 ^ 2 = Real.sin (Real.pi / 7200) ^ 2 := by ring
  rw [hA]
  rw [Real.sqrt_sq hsin0]
  have h1ms : (1 : ℝ) - Real.sin (Real.pi / 7200) ^ 2 = Real.cos (Real.pi / 7200) ^ 2 := by
    have := Real.sin_sq_add_cos_sq (Real.pi / 7200)
    linarith
  rw [h1ms]
  have hcos0 : 0 < Real.cos (Real.pi / 7200) :=
    Real.cos_pos_of_mem_Ioo ⟨by nlinarith, hxlt⟩
  rw [Real.sqrt_sq (le_of_lt hcos0)]
  unfold atan2
  rw [if_pos hcos0]
  rw [show Real.sin (Real.pi / 7200) / Real.cos (Real.pi / 7200) =
      Real.tan (Real.pi / 7200) from (Real.tan_eq_sin_div_cos _).symm]
  rw [Real.arctan_tan (by nlinarith) hxlt]
  have hpi3 : (3.141592 : ℝ) < Real.pi := Real.pi_gt_3141592
  intro hle
  nlinarith


/-- C7 counterexample: at center latitude 60°, radius 35 miles, a
property due east at longitude 1° is within 35 miles by the haversine
check (1° of longitude at 60°N is ≈ 34.65 miles), but the bounding-box
pre-filter only admits longitudes within 35/55 ≈ 0.636°, so the
pre-filter excludes a property the exact distance check includes. -/
theorem c7_counterexample :
    within_radius 60 0 35 60 1 ∧ ¬ in_bounding_box 60 0 35 60 1 := by
  constructor
  · unfold within_radius
    simp only [calculate_distance, radians]
    rw [show (60:ℝ) * Real.pi / 180 - 60 * Real.pi / 180 = 0 from by ring]
    rw [show (0:ℝ) / 2 = 0 from by norm_num, Real.sin_zero]
    rw [show (1:ℝ) * Real.pi / 180 - 0 * Real.pi / 180 = Real.pi / 180 from by ring]
    rw [show (60:ℝ) * Real.pi / 180 = Real.pi / 3 from by ring]
    rw [Real.cos_pi_div_three]
    rw [show (Real.pi / 180) / 2 = Real.pi / 360 from by ring]
    have hA : (0:ℝ) ^ 2 + 1 / 2 * (1 / 2) * Real.sin (Real.pi / 360) ^ 2 =
        (1 / 2 * Real.sin (Real.pi / 360)) ^ 2 := by ring
    rw [hA]
    have hpi0 : 0 < Real.pi := Real.pi_pos
    have hpi : Real.pi < 3.15 := Real.pi_lt_315
    have hs0 : 0 ≤ Real.sin (Real.pi / 360) :=
      Real.sin_nonneg_of_nonneg_of_le_pi (by positivity) (by nlinarith)
    have hs : Real.sin (Real.pi / 360) ≤ 7 / 800 := by
      have h1 : Real.sin (Real.pi / 360) ≤ Real.pi / 360 := Real.sin_le (by positivity)
      nlinarith
    have hh0 : 0 ≤ 1 / 2 * Real.sin (Real.pi / 360) := by linarith
    rw [Real.sqrt_sq hh0]
    have h1A : (9999/10000 : ℝ) ≤
        Real.sqrt (1 - (1 / 2 * Real.sin (Real.pi / 360)) ^ 2) := by
      rw [show (9999/10000 : ℝ) = Real.sqrt ((9999/10000) ^ 2) from
        (Real.sqrt_sq (by norm_num)).symm]
      exact Real.sqrt_le_sqrt (by nlinarith)
    have hpos : 0 < Real.sqrt (1 - (1 / 2 * Real.sin (Real.pi / 360)) ^ 2) :=
      lt_of_lt_of_le (by norm_num) h1A
    unfold atan2
    rw [if_pos hpos]
    have harc : Real.arctan (1 / 2 * Real.sin (Real.pi / 360) /
        Real.sqrt (1 - (1 / 2 * Real.sin (Real.pi / 360)) ^ 2)) ≤
        1 / 2 * Real.sin (Real.pi / 360) /
          Real.sqrt (1 - (1 / 2 * Real.sin (Real.pi / 360)) ^ 2) :=
      arctan_le_self (div_nonneg hh0 (le_of_lt hpos))
    have hdiv : 1 / 2 * Real.sin (Real.pi / 360) /
        Real.sqrt (1 - (1 / 2 * Real.sin (Real.pi / 360)) ^ 2) ≤
        (7/1600) / (9999/10000) := by
      apply div_le_div (by norm_num) (by linarith) (by norm_num) h1A
    nlinarith
  · intro h
    exact absurd h.2.2 (by norm_num)


set_option maxHeartbeats 1000000 in
/-- C7 (amended): in the configured operating region — both latitudes
with cosine at least 4/5 (|lat| ≲ 36.9°, which holds around the
reference center at 35.6°), longitudes not wrapping the antimeridian
(|Δlng| ≤ 180°), and radius at most 100 miles — the rectangular
pre-filter (lat delta radius/69, lng delta radius/55) never excludes a
property the exact haversine check includes, so the pre-filtered radius
query returns the same set as the pure haversine filter there.  At
higher latitudes it can exclude such a property (see the
counterexample). -/
theorem c7_bounding_box_conservative (lat lng radius plat plng : ℝ)
    (hlat90 : |lat| ≤ 90) (hplat90 : |plat| ≤ 90)
    (hclat : 4/5 ≤ Real.cos (radians lat)) (hcplat : 4/5 ≤ Real.cos (radians plat))
    (hlng : |plng - lng| ≤ 180)
    (hr0 : 0 ≤ radius) (hr : radius ≤ 100)
    (hin : within_radius lat lng radius plat plng) :
    in_bounding_box lat lng radius plat plng := by
  have hpi0 : 0 < Real.pi := Real.pi_pos
  have hpi_lt : Real.pi < 3.15 := Real.pi_lt_315
  have hpi_gt : (3.141592 : ℝ) < Real.pi := Real.pi_gt_3141592
  simp only [radians] at hclat hcplat
  unfold within_radius at hin
  simp only [calculate_distance, radians] at hin
  rw [show plat * Real.pi / 180 - lat * Real.pi / 180 = (plat - lat) * Real.pi / 180
      from by ring,
    show plng * Real.pi / 180 - lng * Real.pi / 180 = (plng - lng) * Real.pi / 180
      from by ring] at hin
  set u := (plat - lat) * Real.pi / 180 with hu
  set v := (plng - lng) * Real.pi / 180 with hv
  set A := Real.sin (u / 2) ^ 2 +
      Real.cos (lat * Real.pi / 180) * Real.cos (plat * Real.pi / 180) *
        Real.sin (v / 2) ^ 2 with hA
  have hcosprod : 16/25 ≤ Real.cos (lat * Real.pi / 180) * Real.cos (plat * Real.pi / 180) := by
    nlinarith
  have hA0 : 0 ≤ A := by
    rw [hA]
    nlinarith [sq_nonneg (Real.sin (u / 2)), sq_nonneg (Real.sin (v / 2))]
  have hA1 : A ≤ 1 := by
    have h1 := hav_sum_le_one (lat * Real.pi / 180) (plat * Real.pi / 180) (v / 2)
    rw [show plat * Real.pi / 180 - lat * Real.pi / 180 = u from by rw [hu]; ring] at h1
    rw [hA]
    linarith
  rw [atan2_sqrt_eq_arcsin hA0 hA1] at hin
  have harcsinA : Real.arcsin (Real.sqrt A) ≤ radius / 7918 := by linarith
  have hu_val : |u| = |plat - lat| * Real.pi / 180 := by
    rw [hu, abs_div, abs_mul, abs_of_pos hpi0]
    norm_num
  have hv_val : |v| = |plng - lng| * Real.pi / 180 := by
    rw [hv, abs_div, abs_mul, abs_of_pos hpi0]
    norm_num
  have hdp : |plat - lat| ≤ 180 := by
    have h1 : |plat - lat| ≤ |plat| + |lat| := abs_sub plat lat
    linarith
  have hu_abs : |u| ≤ Real.pi := by
    rw [hu_val]
    nlinarith [abs_nonneg (plat - lat)]
  have hv_abs : |v| ≤ Real.pi := by
    rw [hv_val]
    nlinarith [abs_nonneg (plng - lng)]
  have hu2_abs : |u / 2| = |u| / 2 := by
    rw [abs_div]
    norm_num
  have hv2_abs : |v / 2| = |v| / 2 := by
    rw [abs_div]
    norm_num
  -- latitude component
  have hkey_lat : |plat - lat| ≤ radius / 69 := by
    have h1 : Real.sqrt (Real.sin (u / 2) ^ 2) ≤ Real.sqrt A := by
      apply Real.sqrt_le_sqrt
      rw [hA]
      nlinarith [sq_nonneg (Real.sin (v / 2))]
    rw [Real.sqrt_sq_eq_abs] at h1
    have hs_eq : |Real.sin (u / 2)| = Real.sin |u / 2| := by
      apply abs_sin_eq_sin_abs
      rw [hu2_abs]
      linarith
    have harcsin_sin : Real.arcsin (Real.sin |u / 2|) = |u / 2| := by
      apply Real.arcsin_sin
      · have := abs_nonneg (u / 2)
        linarith
      · rw [hu2_abs]
        linarith
    have hmono : Real.arcsin (Real.sin |u / 2|) ≤ Real.arcsin (Real.sqrt A) := by
      apply Real.monotone_arcsin
      rw [← hs_eq]
      exact h1
    have hu2 : |u| / 2 ≤ radius / 7918 := by
      rw [← hu2_abs, ← harcsin_sin]
      exact le_trans hmono harcsinA
    rw [hu_val] at hu2
    nlinarith [mul_nonneg (sub_nonneg.mpr (le_of_lt hpi_gt)) (abs_nonneg (plat - lat)),
      abs_nonneg (plat - lat)]
  -- longitude component
  have hkey_lng : |plng - lng| ≤ radius / 55 := by
    have hsv0 : (0 : ℝ) ≤ |Real.sin (v / 2)| := abs_nonneg _
    have hsv1 : |Real.sin (v / 2)| ≤ 1 :=
      abs_le.mpr ⟨Real.neg_one_le_sin _, Real.sin_le_one _⟩
    have h1 : 4/5 * |Real.sin (v / 2)| ≤ Real.sqrt A := by
      have h2 : Real.sqrt ((4/5 * |Real.sin (v / 2)|) ^ 2) ≤ Real.sqrt A := by
        apply Real.sqrt_le_sqrt
        rw [hA]
        have h3 : (4/5 * |Real.sin (v / 2)|) ^ 2 = 16/25 * Real.sin (v / 2) ^ 2 := by
          rw [mul_pow, sq_abs]
          norm_num
        rw [h3]
        nlinarith [sq_nonneg (Real.sin (u / 2)), sq_nonneg (Real.sin (v / 2))]
      rwa [Real.sqrt_sq (by positivity)] at h2
    have h3 : 4/5 * |Real.sin (v / 2)| ≤ radius / 7918 := by
      have h4 : 4/5 * |Real.sin (v / 2)| ≤ Real.arcsin (4/5 * |Real.sin (v / 2)|) :=
        self_le_arcsin (by positivity) (by nlinarith)
      have h5 : Real.arcsin (4/5 * |Real.sin (v / 2)|) ≤ Real.arcsin (Real.sqrt A) :=
        Real.monotone_arcsin h1
      linarith
    have hs2_small : |Real.sin (v / 2)| ≤ 500/31672 := by nlinarith
    have hs_eq : |Real.sin (v / 2)| = Real.sin |v / 2| := by
      apply abs_sin_eq_sin_abs
      rw [hv2_abs]
      linarith
    have hv2_eq : Real.arcsin (Real.sin |v / 2|) = |v / 2| := by
      apply Real.arcsin_sin
      · have := abs_nonneg (v / 2)
        linarith
      · rw [hv2_abs]
        linarith
    have harcsin_div : Real.arcsin (|Real.sin (v / 2)|) ≤
        |Real.sin (v / 2)| / Real.sqrt (1 - |Real.sin (v / 2)| ^ 2) :=
      arcsin_le_div hsv0 (by nlinarith)
    have hsq_den : (9997/10000 : ℝ) ≤ Real.sqrt (1 - |Real.sin (v / 2)| ^ 2) := by
      rw [show (9997/10000 : ℝ) = Real.sqrt ((9997/10000) ^ 2) from
        (Real.sqrt_sq (by norm_num)).symm]
      apply Real.sqrt_le_sqrt
      nlinarith
    have hdiv : |Real.sin (v / 2)| / Real.sqrt (1 - |Real.sin (v / 2)| ^ 2) ≤
        |Real.sin (v / 2)| / (9997/10000) :=
      div_le_div_of_nonneg_left hsv0 (by norm_num) hsq_den
    have hv2_le : |v| / 2 ≤ |Real.sin (v / 2)| / (9997/10000) := by
      rw [← hv2_abs, ← hv2_eq, ← hs_eq]
      exact le_trans harcsin_div hdiv
    rw [hv_val] at hv2_le
    nlinarith [mul_nonneg (sub_nonneg.mpr (le_of_lt hpi_gt)) (abs_nonneg (plng - lng)),
      abs_nonneg (plng - lng)]
  obtain ⟨l1, l2⟩ := abs_le.mp hkey_lat
  obtain ⟨m1, m2⟩ := abs_le.mp hkey_lng
  exact ⟨⟨by linarith, by linarith⟩, ⟨by linarith, by linarith⟩⟩


/-- Witness for C7 (amended) at the equator: center (0,0), radius 35,
property at the center itself (haversine distance 0), which the
bounding box indeed contains. -/
theorem c7_bounding_box_conservative_witness :
    in_bounding_box 0 0 35 0 0 := by
  have hcos : (4/5 : ℝ) ≤ Real.cos (radians 0) := by
    rw [radians, show (0 : ℝ) * Real.pi / 180 = 0 from by ring, Real.cos_zero]
    norm_num
  have hin : within_radius 0 0 35 0 0 := by
    unfold within_radius
    simp only [calculate_distance, radians]
    rw [show (0 : ℝ) * Real.pi / 180 - 0 * Real.pi / 180 = 0 from by ring]
    rw [show (0 : ℝ) / 2 = 0 from by norm_num, Real.sin_zero]
    rw [show (0 : ℝ) ^ 2 + Real.cos (0 * Real.pi / 180) * Real.cos (0 * Real.pi / 180) *
        0 ^ 2 = 0 from by ring]
    rw [Real.sqrt_zero, sub_zero, Real.sqrt_one]
    unfold atan2
    rw [if_pos (by norm_num : (0:ℝ) < 1)]
    rw [show (0 : ℝ) / 1 = 0 from by norm_num, Real.arctan_zero]
    norm_num
  exact c7_bounding_box_conservative 0 0 35 0 0 (by norm_num) (by norm_num) hcos hcos
    (by norm_num) (by norm_num) (by norm_num) hin


end MarketAnalizer
